import Mathlib

/-! Kubernetes demo HTTP service (`src/app/main.go`)

A shallow embedding of the request handlers and of the configuration loading of
the demo server, followed by the properties established about them.

Conventions of the embedding

* Go's `int` is the 64-bit two's-complement integer: values are `Int`s and every
  arithmetic result is reduced by `wrapInt64`.
* `time.Time` instants and `time.Duration` values are `Int` nanosecond counts.
* The process environment is a lookup function `String → Option String`
  (`none` for a variable that is not set); the clock is an explicit argument.
* A handler returns the response it writes: status code, `Content-Type` header
  (when one is set before the header is written) and body.
-/

namespace K8sDemo

/-! ## Machine integers -/

/-- Two's-complement reduction of an integer to the range of Go's 64-bit `int`. -/
def wrapInt64 (x : Int) : Int := (x + 2 ^ 63) % 2 ^ 64 - 2 ^ 63

/-- Smallest value of Go's 64-bit `int`. -/
def minInt64 : Int := -(2 ^ 63)

/-- Largest value of Go's 64-bit `int`. -/
def maxInt64 : Int := 2 ^ 63 - 1

/-! ## The server record and its construction -/

/-- The `Server` struct. -/
structure Server where
  port : String
  version : String
  env : String
  dbURL : String
  secret : String
  startTime : Int
  deriving DecidableEq, Repr

/-- Go's `os.Getenv`: the value of the variable, or the empty string when the
variable is not present in the environment. -/
def osGetenv (environ : String → Option String) (key : String) : String :=
  match environ key with
  | some value => value
  | none => ""

/-- The function `getEnv`. -/
def getEnv (environ : String → Option String) (key defaultValue : String) : String :=
  let value := osGetenv environ key
  if value ≠ "" then value else defaultValue

/-- The function `NewServer`; `now` is the reading of `time.Now()`. -/
def NewServer (environ : String → Option String) (now : Int) : Server :=
  let port := getEnv environ "PORT" "8080"
  let version := getEnv environ "APP_VERSION" "v1.0.0"
  let env := getEnv environ "ENVIRONMENT" "development"
  let dbURL := getEnv environ "DATABASE_URL" "localhost:5432"
  let secret := getEnv environ "API_SECRET" "default-secret"
  { port := port, version := version, env := env, dbURL := dbURL,
    secret := secret, startTime := now }

/-! ## Responses -/

/-- What a handler writes: the status code, the `Content-Type` header in force
when the header is written, and the body. -/
structure Response where
  status : Nat
  contentType : Option String
  body : String
  deriving DecidableEq, Repr

/-- The constant `http.StatusOK`. -/
def StatusOK : Nat := 200

/-- The constant `http.StatusServiceUnavailable`. -/
def StatusServiceUnavailable : Nat := 503

/-! ## Readiness -/

/-- The constant `time.Second`, in nanoseconds. -/
def Second : Int := 1000000000

/-- Largest `time.Duration`. -/
def maxDuration : Int := 2 ^ 63 - 1

/-- Smallest `time.Duration`. -/
def minDuration : Int := -(2 ^ 63)

/-- Go's `time.Since` on monotonic clock readings: the difference of the two
readings, saturated to the range of `time.Duration`. -/
def timeSince (start now : Int) : Int :=
  let d := now - start
  if d > maxDuration then maxDuration
  else if d < minDuration then minDuration
  else d

/-- The method `readinessHandler`; `now` is the clock reading at the request. -/
def readinessHandler (s : Server) (now : Int) : Response :=
  if timeSince s.startTime now < 10 * Second then
    { status := StatusServiceUnavailable, contentType := none,
      body := "\x7b\"status\":\"not ready\",\"message\":\"starting up\"\x7d" }
  else
    { status := StatusOK, contentType := some "application/json",
      body := "\x7b\"status\":\"ready\"\x7d" }

/-! ## Configuration endpoint -/

/-- The `%t` verb of `fmt.Sprintf`. -/
def fmtBool (b : Bool) : String := if b then "true" else "false"

/-- The method `configHandler`: the format string with its five verbs filled in. -/
def configHandler (s : Server) : Response :=
  let response :=
    "\x7b\n\t\t\"port\": \"" ++ s.port ++
    "\",\n\t\t\"database_url\": \"" ++ s.dbURL ++
    "\",\n\t\t\"environment\": \"" ++ s.env ++
    "\",\n\t\t\"version\": \"" ++ s.version ++
    "\",\n\t\t\"has_secret\": " ++ fmtBool (s.secret != "default-secret") ++
    "\n\t\x7d"
  { status := StatusOK, contentType := some "application/json", body := response }

/-! ## Load endpoint -/

/-- Digit loop of Go's `strconv.ParseUint` in base 10: the value of a string of
ASCII decimal digits, or `none` at the first byte that is not one. -/
def parseDigits : List Char → Nat → Option Nat
  | [], acc => some acc
  | c :: cs, acc =>
    if '0' ≤ c ∧ c ≤ '9' then parseDigits cs (acc * 10 + (c.toNat - '0'.toNat))
    else none

/-- Go's `strconv.Atoi` with a 64-bit `int` (standard library): an optional
sign, then one or more decimal digits, the value within the `int` range.
`none` stands for a non-nil error (syntax or range). -/
def atoi (s : String) : Option Int :=
  match s.data with
  | [] => none
  | c :: cs =>
    let neg := c == '-'
    let digits := if c == '-' || c == '+' then cs else c :: cs
    if digits = [] then none
    else
      match parseDigits digits 0 with
      | none => none
      | some un =>
        if !neg && un ≥ 2 ^ 63 then none
        else if neg && un > 2 ^ 63 then none
        else some (if neg then -(un : Int) else (un : Int))

/-- Go's `url.Values.Get`: the first value stored under the key, or the empty
string when there is none. The query is the list of its key/value pairs. -/
def urlQueryGet (query : List (String × String)) (key : String) : String :=
  match query.lookup key with
  | some v => v
  | none => ""

/-- Lines 157-162 of `loadHandler`: the iteration count taken from the query. -/
def loadIterations (query : List (String × String)) : Int :=
  let iterations : Int := 1000000
  let iter := urlQueryGet query "iterations"
  if iter ≠ "" then
    match atoi iter with
    | some i => i
    | none => iterations
  else iterations

/-- The loop `for i := 0; i < iterations; i++ { sum += i }` from the state
`(i, sum)`: the final state, or `none` when the fuel runs out first. Each
unit of fuel pays for one evaluation of the loop condition. -/
def loadLoop : Nat → Int → Int → Int → Option (Int × Int)
  | 0, _, _, _ => none
  | fuel + 1, iterations, i, sum =>
    if i < iterations then
      loadLoop fuel iterations (wrapInt64 (i + 1)) (wrapInt64 (sum + i))
    else some (i, sum)

/-- The format string of `loadHandler` with its verbs filled in; `durationMs`
is the rendering of the measured duration by the `%.2f` verb. -/
def loadBody (iterations sum : Int) (durationMs : String) : String :=
  "\x7b\n\t\t\"message\": \"Load test completed\",\n\t\t\"iterations\": " ++
    toString iterations ++
    ",\n\t\t\"result\": " ++ toString sum ++
    ",\n\t\t\"duration_ms\": " ++ durationMs ++
    "\n\t\x7d"

/-- The method `loadHandler`. The measured wall-clock duration is an input,
already rendered; `fuel` bounds the number of loop-condition evaluations. -/
def loadHandler (fuel : Nat) (query : List (String × String)) (durationMs : String) :
    Option Response :=
  let iterations := loadIterations query
  match loadLoop fuel iterations 0 0 with
  | none => none
  | some (_, sum) =>
    some { status := StatusOK, contentType := some "application/json",
           body := loadBody iterations sum durationMs }



/-! ## Observations used in the statements -/

/-- The body is a JSON object whose last member is `has_secret` with value `b`:
it ends with that member as `configHandler` renders it, and the closing brace. -/
def reportsHasSecret (body : String) (b : Bool) : Prop :=
  ("\"has_secret\": " ++ fmtBool b ++ "\n\t\x7d").data <:+ body.data

instance (body : String) (b : Bool) : Decidable (reportsHasSecret body b) :=
  inferInstanceAs (Decidable (_ <:+ _))

/-- The secret occurs in the body as a contiguous substring. -/
def secretInBody (s : Server) : Prop :=
  s.secret.data <:+: (configHandler s).body.data

instance (s : Server) : Decidable (secretInBody s) :=
  inferInstanceAs (Decidable (_ <:+: _))

/-- A process environment given by its `KEY=value` entries. -/
def environOf (entries : List (String × String)) : String → Option String :=
  fun key => entries.lookup key

/-! ## Arithmetic of the 64-bit reduction -/

theorem wrapInt64_of_range (x : Int) (hlo : -(2 ^ 63) ≤ x) (hhi : x < 2 ^ 63) :
    wrapInt64 x = x := by
  unfold wrapInt64
  omega

theorem wrapInt64_add_left (a b : Int) :
    wrapInt64 (wrapInt64 a + b) = wrapInt64 (a + b) := by
  unfold wrapInt64
  omega

theorem triangle_succ (i : Int) : i * (i - 1) / 2 + i = (i + 1) * (i + 1 - 1) / 2 := by
  have h : (i + 1) * (i + 1 - 1) = i * (i - 1) + i * 2 := by ring
  rw [h, Int.add_mul_ediv_right _ _ (by decide : (2 : Int) ≠ 0)]

/-! ## The accumulation loop -/

/-- From a state `(i, sum)` on the loop's path (`sum` the reduced sum of
`0..i-1`) the loop reaches `(n, reduced sum of 0..n-1)` as soon as the fuel
exceeds the number of iterations left. -/
theorem loadLoop_from (k : Nat) : ∀ (fuel : Nat) (n i : Int), 0 ≤ i → i ≤ n → n < 2 ^ 63 →
    (n - i).toNat = k → k < fuel →
    loadLoop fuel n i (wrapInt64 (i * (i - 1) / 2)) =
      some (n, wrapInt64 (n * (n - 1) / 2)) := by
  induction k with
  | zero =>
    intro fuel n i _ hin _ hk hf
    have hi : i = n := by omega
    subst hi
    cases fuel with
    | zero => omega
    | succ f => simp [loadLoop]
  | succ k ih =>
    intro fuel n i h0 hin hn hk hf
    cases fuel with
    | zero => omega
    | succ f =>
      have hlt : i < n := by omega
      rw [loadLoop, if_pos hlt, wrapInt64_of_range (i + 1) (by omega) (by omega),
        wrapInt64_add_left, triangle_succ]
      exact ih f n (i + 1) (by omega) (by omega) hn (by omega) (by omega)

/-- A non-positive iteration count: the first evaluation of the condition ends
the loop in the initial state. -/
theorem loadLoop_nonpos (fuel : Nat) (n : Int) (hn : n ≤ 0) :
    loadLoop (fuel + 1) n 0 0 = some (0, 0) := by
  rw [loadLoop, if_neg (by omega)]

/-- The loop from its initial state, for a non-negative count in `int` range. -/
theorem loadLoop_init (fuel : Nat) (n : Int) (h0 : 0 ≤ n) (hn : n < 2 ^ 63)
    (hf : n.toNat < fuel) :
    loadLoop fuel n 0 0 = some (n, wrapInt64 (n * (n - 1) / 2)) := by
  have h := loadLoop_from n.toNat fuel n 0 (le_refl 0) h0 hn (by simp) hf
  have hz : wrapInt64 ((0 : Int) * (0 - 1) / 2) = 0 := by decide
  rw [hz] at h
  exact h

/-! ## Parsing the iteration count -/

/-- A successful `atoi` yields a value of the 64-bit `int` range. -/
theorem atoi_range (s : String) (i : Int) (h : atoi s = some i) :
    minInt64 ≤ i ∧ i ≤ maxInt64 := by
  unfold atoi at h
  unfold minInt64 maxInt64
  split at h
  · simp at h
  · rename_i c cs _
    simp only at h
    generalize (if (c == '-' || c == '+') = true then cs else c :: cs) = digits at h
    split at h
    · simp at h
    · split at h
      · simp at h
      · rename_i un _
        by_cases hneg : c = '-'
        · simp [hneg] at h
          obtain ⟨hle, hi⟩ := h
          omega
        · simp [hneg] at h
          obtain ⟨hle, hi⟩ := h
          omega

/-- The empty string is a syntax error for `atoi`. -/
theorem atoi_empty : atoi "" = none := by decide

/-- The iteration count is always a value of the 64-bit `int` range. -/
theorem loadIterations_range (query : List (String × String)) :
    minInt64 ≤ loadIterations query ∧ loadIterations query ≤ maxInt64 := by
  unfold loadIterations
  simp only
  split
  · split
    · rename_i i hi
      exact atoi_range _ i hi
    · decide
  · decide

/-- The response of `loadHandler` once the loop has returned. -/
theorem loadHandler_of_loop (fuel : Nat) (query : List (String × String))
    (durationMs : String) (i sum : Int)
    (h : loadLoop fuel (loadIterations query) 0 0 = some (i, sum)) :
    loadHandler fuel query durationMs =
      some { status := StatusOK, contentType := some "application/json",
             body := loadBody (loadIterations query) sum durationMs } := by
  unfold loadHandler
  simp only [h]

/-- With fuel above the iteration count the loop returns, whatever the count in
`int` range: it has run `max n 0` times and holds the reduced sum of
`0..max n 0 - 1`. -/
theorem loadLoop_final (fuel : Nat) (n : Int) (hlo : minInt64 ≤ n) (hhi : n ≤ maxInt64)
    (hf : n.toNat < fuel) :
    loadLoop fuel n 0 0 = some (max n 0, wrapInt64 (max n 0 * (max n 0 - 1) / 2)) := by
  unfold minInt64 at hlo
  unfold maxInt64 at hhi
  by_cases h0 : 0 ≤ n
  · rw [max_eq_left h0]
    exact loadLoop_init fuel n h0 (by omega) hf
  · rw [max_eq_right (by omega : n ≤ 0)]
    cases fuel with
    | zero => omega
    | succ f =>
      have hz : wrapInt64 ((0 : Int) * (0 - 1) / 2) = 0 := by decide
      rw [hz]
      exact loadLoop_nonpos f n (by omega)

/-- The body for the default count, as text. -/
theorem loadBody_default (durationMs : String) :
    loadBody 1000000 499999500000 durationMs =
      "\x7b\n\t\t\"message\": \"Load test completed\",\n\t\t\"iterations\": 1000000,\n\t\t\"result\": 499999500000,\n\t\t\"duration_ms\": " ++
        durationMs ++ "\n\t\x7d" := by
  rfl

/-- The body for a zero result, as text. -/
theorem loadBody_zero (n : Int) (durationMs : String) :
    loadBody n 0 durationMs =
      "\x7b\n\t\t\"message\": \"Load test completed\",\n\t\t\"iterations\": " ++
        toString n ++ ",\n\t\t\"result\": 0,\n\t\t\"duration_ms\": " ++
        durationMs ++ "\n\t\x7d" := by
  unfold loadBody
  simp only [String.append_assoc]
  rfl

/-! ## The load endpoint -/

/-- C1. Whenever the iteration count `n` that `loadHandler` uses is non-negative
and `n*(n-1)/2` is below `2^63`, the loop (given fuel above `n`) ends after `n`
runs with the sum `n*(n-1)/2` of the integers `0..n-1`, and the handler answers
200 with the JSON text whose `iterations` member is `n` in decimal and whose
`result` member is `n*(n-1)/2` in decimal. -/
theorem loadHandler_result_triangular (query : List (String × String))
    (durationMs : String) (n : Int) (fuel : Nat)
    (hn : loadIterations query = n) (h0 : 0 ≤ n) (hsum : n * (n - 1) / 2 < 2 ^ 63)
    (hf : n.toNat < fuel) :
    loadLoop fuel n 0 0 = some (n, n * (n - 1) / 2) ∧
    loadHandler fuel query durationMs =
      some { status := 200, contentType := some "application/json",
             body :=
               "\x7b\n\t\t\"message\": \"Load test completed\",\n\t\t\"iterations\": " ++
                 toString n ++ ",\n\t\t\"result\": " ++ toString (n * (n - 1) / 2) ++
                 ",\n\t\t\"duration_ms\": " ++ durationMs ++ "\n\t\x7d" } := by
  have hr := (loadIterations_range query).2
  rw [hn] at hr
  unfold maxInt64 at hr
  have hloop := loadLoop_init fuel n h0 (by omega) hf
  have hnonneg : 0 ≤ n * (n - 1) / 2 := by
    apply Int.ediv_nonneg _ (by decide)
    by_cases hpos : 0 < n
    · exact Int.mul_nonneg h0 (by omega)
    · have hz : n = 0 := by omega
      subst hz
      decide
  rw [wrapInt64_of_range _ (by omega) hsum] at hloop
  refine ⟨hloop, ?_⟩
  rw [← hn] at hloop
  have h := loadHandler_of_loop fuel query durationMs _ _ hloop
  rw [hn] at h
  exact h

/-- C1, at `iterations=10` (result 45) and at the default count of 1000000
(result 499999500000), with the response text in full. -/
theorem loadHandler_result_triangular_witness :
    (loadIterations [("iterations", "10")] = 10 ∧
      loadHandler 11 [("iterations", "10")] "0.00" =
        some { status := 200, contentType := some "application/json",
               body := "\x7b\n\t\t\"message\": \"Load test completed\",\n\t\t\"iterations\": 10,\n\t\t\"result\": 45,\n\t\t\"duration_ms\": 0.00\n\t\x7d" }) ∧
    (loadIterations [] = 1000000 ∧
      loadHandler 1000001 [] "0.00" =
        some { status := 200, contentType := some "application/json",
               body := "\x7b\n\t\t\"message\": \"Load test completed\",\n\t\t\"iterations\": 1000000,\n\t\t\"result\": 499999500000,\n\t\t\"duration_ms\": 0.00\n\t\x7d" }) :=
  ⟨⟨by decide,
    (loadHandler_result_triangular [("iterations", "10")] "0.00" 10 11 (by decide)
      (by decide) (by decide) (by decide)).2⟩,
   ⟨by decide,
    (loadHandler_result_triangular [] "0.00" 1000000 1000001 (by decide)
      (by decide) (by decide) (by decide)).2⟩⟩

/-- C2. `loadHandler` never fails. When the `iterations` parameter is absent or
empty or `atoi` rejects it, then for every fuel above 1000000 the loop runs
with the count 1000000 (ending after 1000000 runs with sum 499999500000) and
the handler answers 200 with the JSON text showing `iterations` 1000000. When
`atoi` parses the parameter to `i`, then for every fuel above `i` the loop runs
with the count `i` (ending after `max i 0` runs with the 64-bit sum of
`0..max i 0 - 1`) and the handler answers 200 with the JSON text showing
`iterations` as `i` in decimal and `result` as that sum. -/
theorem loadHandler_iterations_fallback (query : List (String × String))
    (durationMs : String) :
    ((urlQueryGet query "iterations" = "" ∨ atoi (urlQueryGet query "iterations") = none) →
      ∀ fuel : Nat, 1000000 < fuel →
        loadLoop fuel (loadIterations query) 0 0 = some (1000000, 499999500000) ∧
        loadHandler fuel query durationMs =
          some { status := 200, contentType := some "application/json",
                 body :=
                   "\x7b\n\t\t\"message\": \"Load test completed\",\n\t\t\"iterations\": 1000000,\n\t\t\"result\": 499999500000,\n\t\t\"duration_ms\": " ++
                     durationMs ++ "\n\t\x7d" }) ∧
    (∀ i : Int, atoi (urlQueryGet query "iterations") = some i →
      ∀ fuel : Nat, i.toNat < fuel →
        loadLoop fuel (loadIterations query) 0 0 =
          some (max i 0, wrapInt64 (max i 0 * (max i 0 - 1) / 2)) ∧
        loadHandler fuel query durationMs =
          some { status := 200, contentType := some "application/json",
                 body :=
                   "\x7b\n\t\t\"message\": \"Load test completed\",\n\t\t\"iterations\": " ++
                     toString i ++ ",\n\t\t\"result\": " ++
                     toString (wrapInt64 (max i 0 * (max i 0 - 1) / 2)) ++
                     ",\n\t\t\"duration_ms\": " ++ durationMs ++ "\n\t\x7d" }) := by
  constructor
  · intro h fuel hf
    have hit : loadIterations query = 1000000 := by
      unfold loadIterations
      rcases h with h | h
      · simp [h]
      · simp [h]
    have hloop : loadLoop fuel (loadIterations query) 0 0 = some (1000000, 499999500000) := by
      rw [hit]
      have hl := loadLoop_init fuel 1000000 (by decide) (by decide) (by omega)
      have hw : wrapInt64 ((1000000 : Int) * (1000000 - 1) / 2) = 499999500000 := by decide
      rw [hw] at hl
      exact hl
    refine ⟨hloop, ?_⟩
    have hr := loadHandler_of_loop fuel query durationMs _ _ hloop
    rw [hit, loadBody_default] at hr
    exact hr
  · intro i h fuel hf
    have hne : urlQueryGet query "iterations" ≠ "" := by
      intro he
      rw [he, atoi_empty] at h
      exact Option.noConfusion h
    have hit : loadIterations query = i := by
      unfold loadIterations
      simp [h, hne]
    obtain ⟨hlo, hhi⟩ := atoi_range _ i h
    have hloop := loadLoop_final fuel i hlo hhi hf
    rw [← hit] at hloop
    have hr := loadHandler_of_loop fuel query durationMs _ _ hloop
    rw [hit] at hloop hr
    rw [hit]
    exact ⟨hloop, hr⟩

/-- C2, at an absent parameter, at `abc`, at a digit string beyond the 64-bit
range, and at `42` (result 861), with the response text in full. -/
theorem loadHandler_iterations_fallback_witness :
    loadHandler 1000001 [] "0.00" =
      some { status := 200, contentType := some "application/json",
             body := "\x7b\n\t\t\"message\": \"Load test completed\",\n\t\t\"iterations\": 1000000,\n\t\t\"result\": 499999500000,\n\t\t\"duration_ms\": 0.00\n\t\x7d" } ∧
    loadHandler 1000001 [("iterations", "abc")] "0.00" =
      some { status := 200, contentType := some "application/json",
             body := "\x7b\n\t\t\"message\": \"Load test completed\",\n\t\t\"iterations\": 1000000,\n\t\t\"result\": 499999500000,\n\t\t\"duration_ms\": 0.00\n\t\x7d" } ∧
    loadHandler 1000001 [("iterations", "9223372036854775808")] "0.00" =
      some { status := 200, contentType := some "application/json",
             body := "\x7b\n\t\t\"message\": \"Load test completed\",\n\t\t\"iterations\": 1000000,\n\t\t\"result\": 499999500000,\n\t\t\"duration_ms\": 0.00\n\t\x7d" } ∧
    loadHandler 43 [("iterations", "42")] "0.00" =
      some { status := 200, contentType := some "application/json",
             body := "\x7b\n\t\t\"message\": \"Load test completed\",\n\t\t\"iterations\": 42,\n\t\t\"result\": 861,\n\t\t\"duration_ms\": 0.00\n\t\x7d" } :=
  ⟨((loadHandler_iterations_fallback [] "0.00").1 (Or.inl (by decide)) 1000001
      (by decide)).2,
   ((loadHandler_iterations_fallback [("iterations", "abc")] "0.00").1
      (Or.inr (by decide)) 1000001 (by decide)).2,
   ((loadHandler_iterations_fallback [("iterations", "9223372036854775808")] "0.00").1
      (Or.inr (by decide)) 1000001 (by decide)).2,
   ((loadHandler_iterations_fallback [("iterations", "42")] "0.00").2 42 (by decide) 43
      (by decide)).2⟩

/-- C9. When the `iterations` parameter parses to `n ≤ 0`, the count used is `n`
itself (not the default), the loop ends at its first evaluation of the
condition, in the initial state `(0, 0)` (no run of the body), and the handler
answers 200 with the JSON text whose `iterations` member is `n` in decimal and
whose `result` member is `0`. -/
theorem loadHandler_nonpositive (query : List (String × String)) (durationMs : String)
    (n : Int) (fuel : Nat)
    (hp : atoi (urlQueryGet query "iterations") = some n) (hn : n ≤ 0) :
    loadIterations query = n ∧
    loadLoop 1 n 0 0 = some (0, 0) ∧
    loadLoop (fuel + 1) (loadIterations query) 0 0 = some (0, 0) ∧
    loadHandler (fuel + 1) query durationMs =
      some { status := 200, contentType := some "application/json",
             body :=
               "\x7b\n\t\t\"message\": \"Load test completed\",\n\t\t\"iterations\": " ++
                 toString n ++ ",\n\t\t\"result\": 0,\n\t\t\"duration_ms\": " ++
                 durationMs ++ "\n\t\x7d" } := by
  have hne : urlQueryGet query "iterations" ≠ "" := by
    intro he
    rw [he, atoi_empty] at hp
    exact Option.noConfusion hp
  have hit : loadIterations query = n := by
    unfold loadIterations
    simp [hp, hne]
  have hloop := loadLoop_nonpos fuel n hn
  rw [← hit] at hloop
  refine ⟨hit, loadLoop_nonpos 0 n hn, hloop, ?_⟩
  have h := loadHandler_of_loop (fuel + 1) query durationMs 0 0 hloop
  rw [hit, loadBody_zero] at h
  exact h

/-- C9, at `iterations=-5`, with the response text in full. -/
theorem loadHandler_nonpositive_witness :
    atoi (urlQueryGet [("iterations", "-5")] "iterations") = some (-5) ∧
    (-5 : Int) ≤ 0 ∧
    loadLoop 1 (-5) 0 0 = some (0, 0) ∧
    loadHandler 1 [("iterations", "-5")] "0.00" =
      some { status := 200, contentType := some "application/json",
             body := "\x7b\n\t\t\"message\": \"Load test completed\",\n\t\t\"iterations\": -5,\n\t\t\"result\": 0,\n\t\t\"duration_ms\": 0.00\n\t\x7d" } :=
  ⟨by decide, by decide,
   (loadHandler_nonpositive [("iterations", "-5")] "0.00" (-5) 0 (by decide)
      (by decide)).2.1,
   ((loadHandler_nonpositive [("iterations", "-5")] "0.00" (-5) 0 (by decide)
      (by decide)).2.2.2).trans (by decide)⟩

/-! ## Readiness -/

/-- The saturated difference is monotone in the clock reading. -/
theorem timeSince_mono (start now1 now2 : Int) (h : now1 ≤ now2) :
    timeSince start now1 ≤ timeSince start now2 := by
  unfold timeSince maxDuration minDuration
  simp only
  split <;> split <;> (try split) <;> (try split) <;> omega

/-- C3. With `d` the elapsed duration since `startTime`, `readinessHandler`
answers 503 with the `not ready` body exactly when `d` is below 10 seconds and
200 with the `ready` body exactly when `d` is at least 10 seconds; at `d` equal
to 10 seconds it is ready. -/
theorem readinessHandler_threshold (s : Server) (now d : Int)
    (hd : timeSince s.startTime now = d) :
    (((readinessHandler s now).status = 503 ∧
        (readinessHandler s now).body =
          "\x7b\"status\":\"not ready\",\"message\":\"starting up\"\x7d") ↔
      d < 10 * Second) ∧
    (((readinessHandler s now).status = 200 ∧
        (readinessHandler s now).body = "\x7b\"status\":\"ready\"\x7d") ↔
      10 * Second ≤ d) ∧
    (d = 10 * Second →
      (readinessHandler s now).status = 200 ∧
        (readinessHandler s now).body = "\x7b\"status\":\"ready\"\x7d") := by
  subst hd
  unfold readinessHandler
  by_cases h : timeSince s.startTime now < 10 * Second
  · rw [if_pos h]
    refine ⟨⟨fun _ => h, fun _ => ⟨rfl, rfl⟩⟩, ⟨fun hh => ?_, fun hh => ?_⟩, fun hh => ?_⟩
    · exact absurd hh.1 (by decide)
    · omega
    · omega
  · rw [if_neg h]
    refine ⟨⟨fun hh => ?_, fun hh => absurd hh h⟩, ⟨fun _ => by omega, fun _ => ⟨rfl, rfl⟩⟩,
      fun _ => ⟨rfl, rfl⟩⟩
    exact absurd hh.1 (by decide)

/-- C3, at an elapsed duration of exactly 10 seconds. -/
theorem readinessHandler_threshold_witness :
    timeSince (Server.mk "8080" "v1.0.0" "development" "localhost:5432" "default-secret" 0).startTime
        10000000000 = 10000000000 ∧
    (readinessHandler (Server.mk "8080" "v1.0.0" "development" "localhost:5432" "default-secret" 0)
        10000000000).status = 200 ∧
    (readinessHandler (Server.mk "8080" "v1.0.0" "development" "localhost:5432" "default-secret" 0)
        10000000000).body = "\x7b\"status\":\"ready\"\x7d" :=
  ⟨by decide,
   (readinessHandler_threshold
      (Server.mk "8080" "v1.0.0" "development" "localhost:5432" "default-secret" 0)
      10000000000 10000000000 (by decide)).2.2 (by decide)⟩

/-- C8. Readiness is monotone in the elapsed duration: if the handler answers
200 at an elapsed duration `d1` it answers 200 at every `d2 ≥ d1` (in
particular at every later clock reading), and two requests with the same
elapsed duration get the same response, whatever the server's other fields. -/
theorem readinessHandler_monotone (s s' : Server) (now1 now2 now' : Int) :
    (timeSince s.startTime now1 ≤ timeSince s.startTime now2 →
      (readinessHandler s now1).status = 200 → (readinessHandler s now2).status = 200) ∧
    (now1 ≤ now2 →
      (readinessHandler s now1).status = 200 → (readinessHandler s now2).status = 200) ∧
    (timeSince s.startTime now1 = timeSince s'.startTime now' →
      readinessHandler s now1 = readinessHandler s' now') := by
  have key : ∀ a b : Int, timeSince s.startTime a ≤ timeSince s.startTime b →
      (readinessHandler s a).status = 200 → (readinessHandler s b).status = 200 := by
    intro a b hle h1
    unfold readinessHandler at h1 ⊢
    by_cases ha : timeSince s.startTime a < 10 * Second
    · rw [if_pos ha] at h1
      exact absurd h1 (by decide)
    · rw [if_neg (by omega : ¬ timeSince s.startTime b < 10 * Second)]
      rfl
  refine ⟨key now1 now2, fun hle => key now1 now2 (timeSince_mono _ _ _ hle), fun heq => ?_⟩
  unfold readinessHandler
  rw [heq]

/-- C8, from 10 seconds to 25 seconds of uptime, and across two servers that
differ in every field but show the same elapsed duration. -/
theorem readinessHandler_monotone_witness :
    (readinessHandler (Server.mk "8080" "v1" "dev" "db" "x" 0) 25000000000).status = 200 ∧
    readinessHandler (Server.mk "8080" "v1" "dev" "db" "x" 0) 3000000000 =
      readinessHandler (Server.mk "9090" "v2" "prod" "db2" "y" 7) 3000000007 :=
  ⟨(readinessHandler_monotone (Server.mk "8080" "v1" "dev" "db" "x" 0)
      (Server.mk "9090" "v2" "prod" "db2" "y" 7) 10000000000 25000000000 0).1
      (by decide) (by decide),
   (readinessHandler_monotone (Server.mk "8080" "v1" "dev" "db" "x" 0)
      (Server.mk "9090" "v2" "prod" "db2" "y" 7) 3000000000 0 3000000007).2.2 (by decide)⟩

/-! ## Configuration loading -/

theorem getEnv_unset (environ : String → Option String) (key defaultValue : String)
    (h : environ key = none) : getEnv environ key defaultValue = defaultValue := by
  simp [getEnv, osGetenv, h]

theorem getEnv_empty (environ : String → Option String) (key defaultValue : String)
    (h : environ key = some "") : getEnv environ key defaultValue = defaultValue := by
  simp [getEnv, osGetenv, h]

theorem getEnv_nonempty (environ : String → Option String) (key defaultValue v : String)
    (h : environ key = some v) (hv : v ≠ "") : getEnv environ key defaultValue = v := by
  simp [getEnv, osGetenv, h, hv]

/-! ## The configuration endpoint -/

/-- The body of `configHandler` as a list of characters. -/
theorem configHandler_body_data (s : Server) :
    (configHandler s).body.data =
      "\x7b\n\t\t\"port\": \"".data ++ (s.port.data ++
      ("\",\n\t\t\"database_url\": \"".data ++ (s.dbURL.data ++
      ("\",\n\t\t\"environment\": \"".data ++ (s.env.data ++
      ("\",\n\t\t\"version\": \"".data ++ (s.version.data ++
      ("\",\n\t\t".data ++ (("\"has_secret\": " ++
        fmtBool (s.secret != "default-secret") ++ "\n\t\x7d").data))))))))) := by
  simp only [configHandler, String.data_append, List.append_assoc]
  rfl

/-- The body ends with the `has_secret` member rendered from the comparison. -/
theorem configHandler_reports (s : Server) :
    reportsHasSecret (configHandler s).body (s.secret != "default-secret") := by
  unfold reportsHasSecret
  rw [configHandler_body_data]
  simp only [← List.append_assoc]
  exact List.suffix_append _ _

/-- A body reports one value of `has_secret` at most. -/
theorem reportsHasSecret_unique (body : String) (b b' : Bool)
    (h : reportsHasSecret body b) (h' : reportsHasSecret body b') : b = b' := by
  unfold reportsHasSecret at h h'
  have hor := List.suffix_or_suffix_of_suffix h h'
  cases b <;> cases b' <;> first
    | rfl
    | (exfalso
       rcases hor with hh | hh
       · exact absurd hh (by decide)
       · exact absurd hh (by decide))

/-- The value of `has_secret` that the body reports. -/
theorem configHandler_reports_iff (s : Server) (b : Bool) :
    reportsHasSecret (configHandler s).body b ↔ b = (s.secret != "default-secret") :=
  ⟨fun h => reportsHasSecret_unique _ _ _ h (configHandler_reports s),
   fun h => h ▸ configHandler_reports s⟩

/-- C6. With none of the five variables set, `NewServer` yields the documented
defaults and `configHandler` answers 200 with a body showing port 8080,
database URL localhost:5432, environment development, version v1.0.0 and
`has_secret` false. -/
theorem NewServer_defaults (environ : String → Option String) (now : Int)
    (hport : environ "PORT" = none) (hversion : environ "APP_VERSION" = none)
    (henv : environ "ENVIRONMENT" = none) (hdb : environ "DATABASE_URL" = none)
    (hsecret : environ "API_SECRET" = none) :
    NewServer environ now =
      { port := "8080", version := "v1.0.0", env := "development",
        dbURL := "localhost:5432", secret := "default-secret", startTime := now } ∧
    configHandler (NewServer environ now) =
      { status := 200, contentType := some "application/json",
        body := "\x7b\n\t\t\"port\": \"8080\",\n\t\t\"database_url\": \"localhost:5432\",\n\t\t\"environment\": \"development\",\n\t\t\"version\": \"v1.0.0\",\n\t\t\"has_secret\": false\n\t\x7d" } := by
  have hs : NewServer environ now =
      { port := "8080", version := "v1.0.0", env := "development",
        dbURL := "localhost:5432", secret := "default-secret", startTime := now } := by
    simp only [NewServer, getEnv_unset, hport, hversion, henv, hdb, hsecret]
  refine ⟨hs, ?_⟩
  rw [hs]
  rfl

/-- C6, at the empty environment. -/
theorem NewServer_defaults_witness :
    NewServer (environOf []) 0 =
      { port := "8080", version := "v1.0.0", env := "development",
        dbURL := "localhost:5432", secret := "default-secret", startTime := 0 } ∧
    configHandler (NewServer (environOf []) 0) =
      { status := 200, contentType := some "application/json",
        body := "\x7b\n\t\t\"port\": \"8080\",\n\t\t\"database_url\": \"localhost:5432\",\n\t\t\"environment\": \"development\",\n\t\t\"version\": \"v1.0.0\",\n\t\t\"has_secret\": false\n\t\x7d" } :=
  NewServer_defaults (environOf []) 0 (by decide) (by decide) (by decide) (by decide)
    (by decide)

/-- C7 as stated fails: with `PORT` set to the empty string the `port` field
does not hold the empty string but the default `8080`. -/
theorem NewServer_empty_port_counterexample :
    environOf [("PORT", "")] "PORT" = some "" ∧
    (NewServer (environOf [("PORT", "")]) 0).port ≠ "" ∧
    (NewServer (environOf [("PORT", "")]) 0).port = "8080" := by
  decide

/-- C7, amended. `NewServer` validates nothing: every non-empty value of a
configuration variable is stored in its field as it is, and an empty value is
treated like an unset variable and replaced by the default. -/
theorem NewServer_keeps_nonempty (environ : String → Option String) (now : Int)
    (v : String) :
    (v ≠ "" →
      (environ "PORT" = some v → (NewServer environ now).port = v) ∧
      (environ "APP_VERSION" = some v → (NewServer environ now).version = v) ∧
      (environ "ENVIRONMENT" = some v → (NewServer environ now).env = v) ∧
      (environ "DATABASE_URL" = some v → (NewServer environ now).dbURL = v) ∧
      (environ "API_SECRET" = some v → (NewServer environ now).secret = v)) ∧
    (v = "" →
      (environ "PORT" = some v → (NewServer environ now).port = "8080") ∧
      (environ "APP_VERSION" = some v → (NewServer environ now).version = "v1.0.0") ∧
      (environ "ENVIRONMENT" = some v → (NewServer environ now).env = "development") ∧
      (environ "DATABASE_URL" = some v → (NewServer environ now).dbURL = "localhost:5432") ∧
      (environ "API_SECRET" = some v → (NewServer environ now).secret = "default-secret")) := by
  refine ⟨fun hv => ⟨?_, ?_, ?_, ?_, ?_⟩, fun hv => ?_⟩
  · intro h
    exact getEnv_nonempty environ _ _ v h hv
  · intro h
    exact getEnv_nonempty environ _ _ v h hv
  · intro h
    exact getEnv_nonempty environ _ _ v h hv
  · intro h
    exact getEnv_nonempty environ _ _ v h hv
  · intro h
    exact getEnv_nonempty environ _ _ v h hv
  · subst hv
    refine ⟨?_, ?_, ?_, ?_, ?_⟩
    · intro h
      exact getEnv_empty environ _ _ h
    · intro h
      exact getEnv_empty environ _ _ h
    · intro h
      exact getEnv_empty environ _ _ h
    · intro h
      exact getEnv_empty environ _ _ h
    · intro h
      exact getEnv_empty environ _ _ h

/-- C7 amended, at a malformed port. -/
theorem NewServer_keeps_nonempty_witness :
    "not-a-port" ≠ "" ∧
    environOf [("PORT", "not-a-port")] "PORT" = some "not-a-port" ∧
    (NewServer (environOf [("PORT", "not-a-port")]) 0).port = "not-a-port" :=
  ⟨by decide, by decide,
   ((NewServer_keeps_nonempty (environOf [("PORT", "not-a-port")]) 0 "not-a-port").1
      (by decide)).1 (by decide)⟩

/-- C4 as stated fails: `API_SECRET` set to the empty string is a value other
than `default-secret`, yet the response reports `has_secret` false, not true. -/
theorem configHandler_empty_secret_counterexample :
    environOf [("API_SECRET", "")] "API_SECRET" = some "" ∧
    "" ≠ "default-secret" ∧
    ¬ reportsHasSecret (configHandler (NewServer (environOf [("API_SECRET", "")]) 0)).body true ∧
    reportsHasSecret (configHandler (NewServer (environOf [("API_SECRET", "")]) 0)).body false := by
  decide

/-- C4, amended. The `/api/config` response of a server built by `NewServer`
reports `has_secret` false when `API_SECRET` is unset, empty or equal to
`default-secret`, and `has_secret` true for every other value. -/
theorem configHandler_has_secret_of_environ (environ : String → Option String) (now : Int) :
    ((environ "API_SECRET" = none ∨ environ "API_SECRET" = some "" ∨
        environ "API_SECRET" = some "default-secret") →
      reportsHasSecret (configHandler (NewServer environ now)).body false ∧
        ¬ reportsHasSecret (configHandler (NewServer environ now)).body true) ∧
    (∀ v : String, environ "API_SECRET" = some v → v ≠ "" → v ≠ "default-secret" →
      reportsHasSecret (configHandler (NewServer environ now)).body true ∧
        ¬ reportsHasSecret (configHandler (NewServer environ now)).body false) := by
  constructor
  · intro h
    have hs : (NewServer environ now).secret = "default-secret" := by
      rcases h with h | h | h
      · exact getEnv_unset environ _ _ h
      · exact getEnv_empty environ _ _ h
      · exact getEnv_nonempty environ _ _ _ h (by decide)
    rw [configHandler_reports_iff, configHandler_reports_iff, hs]
    decide
  · intro v h hv hd
    have hs : (NewServer environ now).secret = v := getEnv_nonempty environ _ _ v h hv
    rw [configHandler_reports_iff, configHandler_reports_iff, hs]
    simp [hd]

/-- C4 amended, at an unset secret and at the secret `s3cr3t`. -/
theorem configHandler_has_secret_of_environ_witness :
    reportsHasSecret (configHandler (NewServer (environOf []) 0)).body false ∧
    reportsHasSecret
      (configHandler (NewServer (environOf [("API_SECRET", "s3cr3t")]) 0)).body true :=
  ⟨((configHandler_has_secret_of_environ (environOf []) 0).1 (Or.inl (by decide))).1,
   ((configHandler_has_secret_of_environ (environOf [("API_SECRET", "s3cr3t")]) 0).2
      "s3cr3t" (by decide) (by decide) (by decide)).1⟩

/-- The body of `configHandler` as text: the format text with the four displayed
fields and the word `true` or `false` filled in. -/
theorem configHandler_body_text (s : Server) :
    (configHandler s).body =
      "\x7b\n\t\t\"port\": \"" ++ s.port ++
      "\",\n\t\t\"database_url\": \"" ++ s.dbURL ++
      "\",\n\t\t\"environment\": \"" ++ s.env ++
      "\",\n\t\t\"version\": \"" ++ s.version ++
      "\",\n\t\t\"has_secret\": " ++
      (if s.secret = "default-secret" then "false" else "true") ++ "\n\t\x7d" := by
  unfold configHandler fmtBool
  by_cases h : s.secret = "default-secret"
  · simp [h]
  · simp [h]

/-- The body does not change when the secret is replaced by another one on
the same side of the comparison with `default-secret`. -/
theorem configHandler_body_replace (s : Server) (other : String)
    (h : s.secret = "default-secret" ↔ other = "default-secret") :
    (configHandler { s with secret := other }).body = (configHandler s).body := by
  rw [configHandler_body_text, configHandler_body_text]
  by_cases hs : s.secret = "default-secret"
  · simp [hs, h.mp hs]
  · have ho : ¬ other = "default-secret" := fun e => hs (h.mpr e)
    simp [hs, ho]

/-- C5 as stated fails: the secret `true` is a substring of the response body,
which renders `has_secret` as `true`. -/
theorem configHandler_secret_substring_counterexample :
    secretInBody
      { port := "8080", version := "v1.0.0", env := "development",
        dbURL := "localhost:5432", secret := "true", startTime := 0 } :=
  ⟨"\x7b\n\t\t\"port\": \"8080\",\n\t\t\"database_url\": \"localhost:5432\",\n\t\t\"environment\": \"development\",\n\t\t\"version\": \"v1.0.0\",\n\t\t\"has_secret\": ".data,
   "\n\t\x7d".data, rfl⟩

/-- C5, amended. `configHandler` never formats the secret into the body: for
every server configuration the secret is a substring of the `/api/config`
body if and only if it is a substring of the format text filled in with the
port, the database URL, the environment, the version and the word `false`
(secret equal to `default-secret`) or `true` (any other secret); equivalently,
if and only if it is a substring of the body produced for any other secret on
the same side of the comparison with `default-secret`. -/
theorem configHandler_secret_in_body_iff (s : Server) (other : String) :
    (secretInBody s ↔
      s.secret.data <:+:
        ("\x7b\n\t\t\"port\": \"" ++ s.port ++
         "\",\n\t\t\"database_url\": \"" ++ s.dbURL ++
         "\",\n\t\t\"environment\": \"" ++ s.env ++
         "\",\n\t\t\"version\": \"" ++ s.version ++
         "\",\n\t\t\"has_secret\": " ++
         (if s.secret = "default-secret" then "false" else "true") ++ "\n\t\x7d").data) ∧
    ((s.secret = "default-secret" ↔ other = "default-secret") →
      (secretInBody s ↔
        s.secret.data <:+: (configHandler { s with secret := other }).body.data)) := by
  constructor
  · unfold secretInBody
    rw [configHandler_body_text]
  · intro h
    unfold secretInBody
    rw [configHandler_body_replace s other h]

set_option maxRecDepth 100000 in
/-- C5 amended, at the secrets `admin`, `hunter2`, `1234`, `s3cr3t` and `100%`
with the default displayed fields, and at `admin` with other fields (through
the body for the secret `hunter2`): none is a substring of the body. -/
theorem configHandler_secret_in_body_iff_witness :
    ¬ secretInBody
      { port := "8080", version := "v1.0.0", env := "development",
        dbURL := "localhost:5432", secret := "admin", startTime := 0 } ∧
    ¬ secretInBody
      { port := "8080", version := "v1.0.0", env := "development",
        dbURL := "localhost:5432", secret := "hunter2", startTime := 0 } ∧
    ¬ secretInBody
      { port := "8080", version := "v1.0.0", env := "development",
        dbURL := "localhost:5432", secret := "1234", startTime := 0 } ∧
    ¬ secretInBody
      { port := "8080", version := "v1.0.0", env := "development",
        dbURL := "localhost:5432", secret := "s3cr3t", startTime := 0 } ∧
    ¬ secretInBody
      { port := "8080", version := "v1.0.0", env := "development",
        dbURL := "localhost:5432", secret := "100%", startTime := 0 } ∧
    ¬ secretInBody
      { port := "9090", version := "v2.3.1", env := "production",
        dbURL := "db.internal:5432", secret := "admin", startTime := 0 } :=
  ⟨fun h => absurd ((configHandler_secret_in_body_iff _ "x").1.mp h) (by decide),
   fun h => absurd ((configHandler_secret_in_body_iff _ "x").1.mp h) (by decide),
   fun h => absurd ((configHandler_secret_in_body_iff _ "x").1.mp h) (by decide),
   fun h => absurd ((configHandler_secret_in_body_iff _ "x").1.mp h) (by decide),
   fun h => absurd ((configHandler_secret_in_body_iff _ "x").1.mp h) (by decide),
   fun h => absurd (((configHandler_secret_in_body_iff _ "hunter2").2 (by decide)).mp h)
     (by decide)⟩

/-- C10. The body depends on the secret only through the comparison with
`default-secret`: two servers with the same port, database URL, environment
and version whose secrets are both different from `default-secret` (more
generally, on the same side of the comparison) produce the same body, and the
body reports `has_secret` true exactly when the secret differs from
`default-secret`. -/
theorem configHandler_secret_only_flag (s1 s2 : Server)
    (hport : s1.port = s2.port) (hdb : s1.dbURL = s2.dbURL) (henv : s1.env = s2.env)
    (hversion : s1.version = s2.version) :
    (s1.secret ≠ "default-secret" → s2.secret ≠ "default-secret" →
      (configHandler s1).body = (configHandler s2).body) ∧
    ((s1.secret ≠ "default-secret" ↔ s2.secret ≠ "default-secret") →
      (configHandler s1).body = (configHandler s2).body) ∧
    (reportsHasSecret (configHandler s1).body true ↔ s1.secret ≠ "default-secret") := by
  have flag : (s1.secret ≠ "default-secret" ↔ s2.secret ≠ "default-secret") →
      (configHandler s1).body = (configHandler s2).body := by
    intro hiff
    have hb : (s1.secret != "default-secret") = (s2.secret != "default-secret") := by
      by_cases h1 : s1.secret = "default-secret"
      · have h2 : s2.secret = "default-secret" := by
          by_contra hne
          exact (hiff.mpr hne) h1
        simp [h1, h2]
      · have h2 : s2.secret ≠ "default-secret" := hiff.mp h1
        have e1 : (s1.secret != "default-secret") = true := by simpa using h1
        have e2 : (s2.secret != "default-secret") = true := by simpa using h2
        rw [e1, e2]
    simp only [configHandler, hport, hdb, henv, hversion, hb]
  refine ⟨fun h1 h2 => flag ⟨fun _ => h2, fun _ => h1⟩, flag, ?_⟩
  rw [configHandler_reports_iff]
  by_cases h1 : s1.secret = "default-secret"
  · simp [h1]
  · simp [h1]

/-- C10, at the secrets `alpha` and `bravo-2` with equal displayed fields. -/
theorem configHandler_secret_only_flag_witness :
    (configHandler
        { port := "8080", version := "v1.0.0", env := "development",
          dbURL := "localhost:5432", secret := "alpha", startTime := 0 }).body =
      (configHandler
        { port := "8080", version := "v1.0.0", env := "development",
          dbURL := "localhost:5432", secret := "bravo-2", startTime := 5 }).body :=
  (configHandler_secret_only_flag
    { port := "8080", version := "v1.0.0", env := "development",
      dbURL := "localhost:5432", secret := "alpha", startTime := 0 }
    { port := "8080", version := "v1.0.0", env := "development",
      dbURL := "localhost:5432", secret := "bravo-2", startTime := 5 }
    rfl rfl rfl rfl).1 (by decide) (by decide)

end K8sDemo
